import Mathlib

/-!
Verification of the primitive-type trait registry of
`tensorflow/compiler/xla/primitive_util.cc`: the type-trait resolver
(significand width, exponent width, exponent bias, has-infinity) and the
name registry (lowercase names, string-to-tag parsing), plus
`SignedIntegralTypeForBitWidth`.

The `PrimitiveType` enumeration, its proto-generated helpers
(`PrimitiveType_Name`, `PrimitiveType_IsValid`, `PrimitiveType_ARRAYSIZE`),
the `BitWidth` lookup and the `std::numeric_limits` trait constants live
outside the translated source; they are modelled from the spec where noted.
-/

/-- Modelled from the spec: the closed, externally-defined enumeration of
type tags ("floating-point variants: 16/32/64-bit standard floats,
brain-float, and five 8-bit float variants ... plus non-floating variants
and one sentinel invalid and one opaque placeholder value"), with the
proto ordinals used by this repository. -/
inductive PrimitiveType where
  | PRIMITIVE_TYPE_INVALID
  | PRED
  | S8
  | S16
  | S32
  | S64
  | U8
  | U16
  | U32
  | U64
  | F16
  | F32
  | F64
  | TUPLE
  | OPAQUE_TYPE
  | C64
  | BF16
  | TOKEN
  | C128
  | F8E5M2
  | F8E4M3FN
  | S4
  | U4
  | F8E4M3B11FNUZ
  | F8E5M2FNUZ
  | F8E4M3FNUZ
deriving DecidableEq

open PrimitiveType

/-- Modelled from the spec: the ordinal index each tag has in the closed
enumeration ("totally ordered only insofar as the closed set defines an
ordinal index"). -/
def toOrd : PrimitiveType → Nat
  | PRIMITIVE_TYPE_INVALID => 0
  | PRED => 1
  | S8 => 2
  | S16 => 3
  | S32 => 4
  | S64 => 5
  | U8 => 6
  | U16 => 7
  | U32 => 8
  | U64 => 9
  | F16 => 10
  | F32 => 11
  | F64 => 12
  | TUPLE => 13
  | OPAQUE_TYPE => 14
  | C64 => 15
  | BF16 => 16
  | TOKEN => 17
  | C128 => 18
  | F8E5M2 => 19
  | F8E4M3FN => 20
  | S4 => 21
  | U4 => 22
  | F8E4M3B11FNUZ => 23
  | F8E5M2FNUZ => 24
  | F8E4M3FNUZ => 25

/-- Modelled from the spec: partial inverse of `toOrd`; `none` on ordinals
holding no tag. -/
def ofOrd : Nat → Option PrimitiveType
  | 0 => some PRIMITIVE_TYPE_INVALID
  | 1 => some PRED
  | 2 => some S8
  | 3 => some S16
  | 4 => some S32
  | 5 => some S64
  | 6 => some U8
  | 7 => some U16
  | 8 => some U32
  | 9 => some U64
  | 10 => some F16
  | 11 => some F32
  | 12 => some F64
  | 13 => some TUPLE
  | 14 => some OPAQUE_TYPE
  | 15 => some C64
  | 16 => some BF16
  | 17 => some TOKEN
  | 18 => some C128
  | 19 => some F8E5M2
  | 20 => some F8E4M3FN
  | 21 => some S4
  | 22 => some U4
  | 23 => some F8E4M3B11FNUZ
  | 24 => some F8E5M2FNUZ
  | 25 => some F8E4M3FNUZ
  | _ => none

/-- Modelled from the spec: "a total count of representable ordinal slots"
of the closed enumeration (`PrimitiveType_ARRAYSIZE`, one past the largest
assigned ordinal). -/
def PrimitiveType_ARRAYSIZE : Nat := 26

/-- Modelled from the spec: "a validity predicate over ordinals"
(`PrimitiveType_IsValid`). -/
def PrimitiveType_IsValid (n : Nat) : Bool := (ofOrd n).isSome

/-- Modelled from the spec: "a display-name function per valid tag"
(`PrimitiveType_Name`), the declared identifier of each tag. -/
def PrimitiveType_Name : PrimitiveType → String
  | PRIMITIVE_TYPE_INVALID => "PRIMITIVE_TYPE_INVALID"
  | PRED => "PRED"
  | S8 => "S8"
  | S16 => "S16"
  | S32 => "S32"
  | S64 => "S64"
  | U8 => "U8"
  | U16 => "U16"
  | U32 => "U32"
  | U64 => "U64"
  | F16 => "F16"
  | F32 => "F32"
  | F64 => "F64"
  | TUPLE => "TUPLE"
  | OPAQUE_TYPE => "OPAQUE_TYPE"
  | C64 => "C64"
  | BF16 => "BF16"
  | TOKEN => "TOKEN"
  | C128 => "C128"
  | F8E5M2 => "F8E5M2"
  | F8E4M3FN => "F8E4M3FN"
  | S4 => "S4"
  | U4 => "U4"
  | F8E4M3B11FNUZ => "F8E4M3B11FNUZ"
  | F8E5M2FNUZ => "F8E5M2FNUZ"
  | F8E4M3FNUZ => "F8E4M3FNUZ"

/-- Modelled from the spec: the separate "bit-width lookup over the same
closed tag set" (`BitWidth`, "assumed given"); each tag's declared total
bit width, fatal on widthless tags, modelled as `Except.error`. -/
def BitWidth : PrimitiveType → Except String Int
  | PRED => .ok 1
  | S4 => .ok 4
  | U4 => .ok 4
  | S8 => .ok 8
  | U8 => .ok 8
  | F8E5M2 => .ok 8
  | F8E4M3FN => .ok 8
  | F8E4M3B11FNUZ => .ok 8
  | F8E5M2FNUZ => .ok 8
  | F8E4M3FNUZ => .ok 8
  | S16 => .ok 16
  | U16 => .ok 16
  | F16 => .ok 16
  | BF16 => .ok 16
  | S32 => .ok 32
  | U32 => .ok 32
  | F32 => .ok 32
  | S64 => .ok 64
  | U64 => .ok 64
  | F64 => .ok 64
  | C64 => .ok 64
  | C128 => .ok 128
  | t => .error ("Unhandled primitive type " ++ PrimitiveType_Name t)

/-- `SignificandWidth` from `primitive_util.cc`: the switch returns
`std::numeric_limits<T>::digits` for each of the nine floating-point
tags and is `LOG(FATAL)` (modelled as `Except.error` carrying the
diagnostic) on every other tag.  The `digits` constants are modelled from
the spec ("per the numeric-format definition of each of the nine supported
floating-point encodings"): an `EaMb` format has `b` explicit significand
bits plus the implicit leading bit, binary32 has 24, binary64 has 53,
binary16 has 11 and bfloat16 has 8. -/
def SignificandWidth : PrimitiveType → Except String Int
  | F32 => .ok 24
  | F64 => .ok 53
  | BF16 => .ok 8
  | F16 => .ok 11
  | F8E5M2 => .ok 3
  | F8E4M3FN => .ok 4
  | F8E4M3B11FNUZ => .ok 4
  | F8E5M2FNUZ => .ok 3
  | F8E4M3FNUZ => .ok 4
  | t => .error ("Not a floating data type " ++ PrimitiveType_Name t)

/-- `ExponentWidth` from `primitive_util.cc`: the total bit width minus
the trailing significand field width minus the single sign bit. -/
def ExponentWidth (t : PrimitiveType) : Except String Int := do
  let total_bit_width ← BitWidth t
  let sw ← SignificandWidth t
  let trailing_significand_field_width := sw - 1
  let kSignBitWidth : Int := 1
  pure (total_bit_width - (trailing_significand_field_width + kSignBitWidth))

/-- `ExponentBias` from `primitive_util.cc`: `(1 << (ExponentWidth(type)-1)) - 1`
for the six standard-bias tags, fixed literals 11, 8 and 16 for the three
FNUZ 8-bit variants, fatal otherwise. -/
def ExponentBias (t : PrimitiveType) : Except String Int :=
  match t with
  | F32 | BF16 | F16 | F64 | F8E5M2 | F8E4M3FN => do
    let ew ← ExponentWidth t
    pure ((2 : Int) ^ (ew - 1).toNat - 1)
  | F8E4M3B11FNUZ => .ok 11
  | F8E4M3FNUZ => .ok 8
  | F8E5M2FNUZ => .ok 16
  | _ => .error ("Not a floating data type " ++ PrimitiveType_Name t)

/-- `HasInfinity` from `primitive_util.cc`: the switch returns
`std::numeric_limits<T>::has_infinity` for each of the nine floating-point
tags and `false` for every other tag.  The `has_infinity` constants are
modelled from the spec's format definitions: the IEEE-style formats
(binary16/32/64, bfloat16 and the 8-bit e5m2) reserve an infinity
encoding, while the `FN` ("finite numbers only") and `FNUZ` variants
trade the infinity encoding for extra range/NaN patterns. -/
def HasInfinity : PrimitiveType → Bool
  | F32 => true
  | F64 => true
  | BF16 => true
  | F16 => true
  | F8E5M2 => true
  | F8E4M3FN => false
  | F8E4M3B11FNUZ => false
  | F8E5M2FNUZ => false
  | F8E4M3FNUZ => false
  | _ => false

/-- The nine floating-point tags enumerated by the resolver switches in
`primitive_util.cc`, in source order. -/
def floatingPointTypes : List PrimitiveType :=
  [F32, F64, BF16, F16, F8E5M2, F8E4M3FN, F8E4M3B11FNUZ, F8E5M2FNUZ, F8E4M3FNUZ]

/-- The six tags sharing the generic-bias arm of `ExponentBias`, in source
order. -/
def genericBiasTypes : List PrimitiveType :=
  [F32, BF16, F16, F64, F8E5M2, F8E4M3FN]

/-- `SignedIntegralTypeForBitWidth` from `primitive_util.cc`: total over
all bit widths, returning the invalid sentinel on unsupported widths. -/
def SignedIntegralTypeForBitWidth (src_bitwidth : Int) : PrimitiveType :=
  if src_bitwidth = 4 then S4
  else if src_bitwidth = 8 then S8
  else if src_bitwidth = 16 then S16
  else if src_bitwidth = 32 then S32
  else if src_bitwidth = 64 then S64
  else PRIMITIVE_TYPE_INVALID

/-- Modelled from the spec: `absl::AsciiStrToLower` on one character,
mapping ASCII uppercase to lowercase and leaving other bytes unchanged. -/
def asciiCharToLower (c : Char) : Char :=
  if 'A' ≤ c ∧ c ≤ 'Z' then Char.ofNat (c.toNat + 32) else c

/-- Modelled from the spec: `absl::AsciiStrToLower` over a string. -/
def asciiStrToLower (s : String) : String :=
  String.mk (s.data.map asciiCharToLower)

/-- The forward name table built by `PrimitiveTypeNameGenerator`'s
constructor: entry `i` is "opaque" at the OPAQUE_TYPE ordinal, the
lowercased display name at any other valid ordinal, and the empty string
(the array's default) at invalid ordinals. -/
def lowercaseNameTable (i : Nat) : String :=
  if i = toOrd OPAQUE_TYPE then "opaque"
  else
    match ofOrd i with
    | some t => asciiStrToLower (PrimitiveType_Name t)
    | none => ""

/-- `LowercasePrimitiveTypeName` via `PrimitiveTypeNameGenerator.LowercaseName`:
`CHECK_LT(t, PrimitiveType_ARRAYSIZE)` is a fatal bounds check, modelled as
`none`; in range, the table entry is returned.  The argument is the tag's
ordinal, since the C++ enum argument is integer-backed and may carry any
ordinal. -/
def LowercasePrimitiveTypeName (n : Nat) : Option String :=
  if n < PrimitiveType_ARRAYSIZE then some (lowercaseNameTable n) else none

/-- The reverse map built by `GetPrimitiveTypeStringMap`: every valid,
non-invalid ordinal contributes its lowercase name, then the alias
"opaque" is inserted (same value the loop already gave it, so first-match
lookup coincides with the hash map's overwrite semantics). -/
def nameToTypeMap : List (String × PrimitiveType) :=
  ((List.range PrimitiveType_ARRAYSIZE).filterMap (fun i =>
    match ofOrd i with
    | some t =>
      if i ≠ toOrd PRIMITIVE_TYPE_INVALID then some (lowercaseNameTable i, t)
      else none
    | none => none)) ++ [("opaque", OPAQUE_TYPE)]

/-- First-match association lookup, the map's `find`. -/
def mapFind (m : List (String × PrimitiveType)) (s : String) : Option PrimitiveType :=
  match m with
  | [] => none
  | (k, v) :: rest => if k = s then some v else mapFind rest s

/-- `StringToPrimitiveType` from `primitive_util.cc`: map lookup, with the
`InvalidArgument` status (modelled as `Except.error`) echoing the input. -/
def StringToPrimitiveType (name : String) : Except String PrimitiveType :=
  match mapFind nameToTypeMap name with
  | some t => .ok t
  | none => .error ("Invalid element type string: \"" ++ name ++ "\".")

/-- `IsPrimitiveTypeName` from `primitive_util.cc`: the same lookup,
collapsed to existence. -/
def IsPrimitiveTypeName (name : String) : Bool :=
  (mapFind nameToTypeMap name).isSome

/-- Claim C1, counterexample: the claim requires `HasInfinity` to hold for
six tags, four standard ones plus two of the five 8-bit variants; in the
code exactly one 8-bit variant (F8E5M2) has an infinity encoding, the
FN/FNUZ variants do not, so only five tags in total have one. -/
theorem c1_counterexample :
    HasInfinity F8E5M2 = true ∧ HasInfinity F8E4M3FN = false ∧
    HasInfinity F8E4M3B11FNUZ = false ∧ HasInfinity F8E5M2FNUZ = false ∧
    HasInfinity F8E4M3FNUZ = false ∧
    (floatingPointTypes.filter HasInfinity).length = 5 := by
  decide

/-- Claim C1, amended: `HasInfinity` is total over all tags, returning
true for exactly the five tags F16, F32, F64, BF16 and F8E5M2, and false
for every other tag, including all non-floating-point tags. -/
theorem c1_theorem (t : PrimitiveType) :
    HasInfinity t = decide (t = F16 ∨ t = F32 ∨ t = F64 ∨ t = BF16 ∨ t = F8E5M2) := by
  cases t <;> rfl

/-- Claim C2: `ExponentBias` returns the fixed literals 11 for
F8E4M3B11FNUZ, 8 for F8E4M3FNUZ and 16 for F8E5M2FNUZ, and each differs
from what the generic bias formula `2^(ExponentWidth-1) - 1` would give
for that tag. -/
theorem c2_theorem :
    ExponentBias F8E4M3B11FNUZ = .ok 11 ∧
    ExponentBias F8E4M3FNUZ = .ok 8 ∧
    ExponentBias F8E5M2FNUZ = .ok 16 ∧
    (ExponentWidth F8E4M3B11FNUZ = .ok 4 ∧ (11 : Int) ≠ 2 ^ (4 - 1) - 1) ∧
    (ExponentWidth F8E4M3FNUZ = .ok 4 ∧ (8 : Int) ≠ 2 ^ (4 - 1) - 1) ∧
    (ExponentWidth F8E5M2FNUZ = .ok 5 ∧ (16 : Int) ≠ 2 ^ (5 - 1) - 1) := by
  refine ⟨rfl, rfl, rfl, ⟨rfl, by decide⟩, ⟨rfl, by decide⟩, ⟨rfl, by decide⟩⟩

/-- Claim C3: for every supported floating-point tag, the exponent width,
the trailing significand field width and the sign bit partition the total
bit width exactly: `ExponentWidth + (SignificandWidth - 1) + 1 = BitWidth`. -/
theorem c3_theorem (t : PrimitiveType) (h : t ∈ floatingPointTypes) :
    (do
      let ew ← ExponentWidth t
      let sw ← SignificandWidth t
      pure (ew + (sw - 1) + 1) : Except String Int) = BitWidth t := by
  cases t <;> first | rfl | exact absurd h (by decide)

/-- Witness for claim C3 at the concrete tag F16. -/
theorem c3_witness :
    F16 ∈ floatingPointTypes ∧
    (do
      let ew ← ExponentWidth F16
      let sw ← SignificandWidth F16
      pure (ew + (sw - 1) + 1) : Except String Int) = BitWidth F16 :=
  ⟨by decide, c3_theorem F16 (by decide)⟩

/-- Claim C4: for each of the six tags F16, F32, F64, BF16, F8E5M2 and
F8E4M3FN, the exponent bias equals `2^(ExponentWidth - 1) - 1`. -/
theorem c4_theorem (t : PrimitiveType) (h : t ∈ genericBiasTypes) :
    ∃ ew b : Int, ExponentWidth t = .ok ew ∧ ExponentBias t = .ok b ∧
      b = 2 ^ (ew - 1).toNat - 1 := by
  cases t
  case F32 => exact ⟨8, 127, rfl, rfl, rfl⟩
  case BF16 => exact ⟨8, 127, rfl, rfl, rfl⟩
  case F16 => exact ⟨5, 15, rfl, rfl, rfl⟩
  case F64 => exact ⟨11, 1023, rfl, rfl, rfl⟩
  case F8E5M2 => exact ⟨5, 15, rfl, rfl, rfl⟩
  case F8E4M3FN => exact ⟨4, 7, rfl, rfl, rfl⟩
  all_goals exact absurd h (by decide)

/-- Witness for claim C4 at the concrete tag F32. -/
theorem c4_witness :
    F32 ∈ genericBiasTypes ∧
    ∃ ew b : Int, ExponentWidth F32 = .ok ew ∧ ExponentBias F32 = .ok b ∧
      b = 2 ^ (ew - 1).toNat - 1 :=
  ⟨by decide, c4_theorem F32 (by decide)⟩

/-- Claim C5, counterexample: the sentinel PRIMITIVE_TYPE_INVALID is a
valid tag with the non-empty canonical name "primitive_type_invalid", yet
parsing that name fails, because the reverse map skips the sentinel. -/
theorem c5_counterexample :
    PrimitiveType_IsValid (toOrd PRIMITIVE_TYPE_INVALID) = true ∧
    LowercasePrimitiveTypeName (toOrd PRIMITIVE_TYPE_INVALID)
      = some "primitive_type_invalid" ∧
    "primitive_type_invalid" ≠ "" ∧
    StringToPrimitiveType "primitive_type_invalid"
      = .error ("Invalid element type string: \"primitive_type_invalid\".") :=
  ⟨rfl, rfl, by decide, rfl⟩

/-- Claim C5, amended: for every valid tag other than the sentinel
PRIMITIVE_TYPE_INVALID, the canonical lowercase name is non-empty and
parsing it back yields the same tag. -/
theorem c5_theorem (t : PrimitiveType) (h : t ≠ PRIMITIVE_TYPE_INVALID) :
    ∃ name, LowercasePrimitiveTypeName (toOrd t) = some name ∧ name ≠ "" ∧
      StringToPrimitiveType name = .ok t := by
  cases t <;> first | exact absurd rfl h | exact ⟨_, rfl, by decide, rfl⟩

/-- Witness for claim C5 at the concrete tag BF16. -/
theorem c5_witness :
    BF16 ≠ PRIMITIVE_TYPE_INVALID ∧
    ∃ name, LowercasePrimitiveTypeName (toOrd BF16) = some name ∧ name ≠ "" ∧
      StringToPrimitiveType name = .ok BF16 :=
  ⟨by decide, c5_theorem BF16 (by decide)⟩

/-- Claim C6: parsing "opaque" succeeds with the OPAQUE_TYPE placeholder
tag, while parsing "opaque_type", the raw enum-derived lowercase
spelling, fails. -/
theorem c6_theorem :
    StringToPrimitiveType "opaque" = .ok OPAQUE_TYPE ∧
    StringToPrimitiveType "opaque_type"
      = .error ("Invalid element type string: \"opaque_type\".") :=
  ⟨rfl, rfl⟩

/-- Claim C7: calling `SignificandWidth` on any non-floating-point tag is
fatal (modelled as `Except.error`, never a value), with a diagnostic
naming the offending tag. -/
theorem c7_theorem (t : PrimitiveType) (h : t ∉ floatingPointTypes) :
    SignificandWidth t = .error ("Not a floating data type " ++ PrimitiveType_Name t) := by
  cases t <;> first | rfl | exact absurd (by decide) h

/-- Witness for claim C7 at the concrete integer tag S32. -/
theorem c7_witness :
    S32 ∉ floatingPointTypes ∧
    SignificandWidth S32 = .error ("Not a floating data type " ++ PrimitiveType_Name S32) :=
  ⟨by decide, c7_theorem S32 (by decide)⟩

/-- Claim C8: looking up a name at an ordinal at or beyond
`PrimitiveType_ARRAYSIZE` is a fatal bounds error (modelled as `none`),
while an in-range but invalid ordinal yields the empty string; in this
enumeration every in-range ordinal is valid, so the second case is
unreachable. -/
theorem c8_theorem :
    (∀ n : Nat, PrimitiveType_ARRAYSIZE ≤ n → LowercasePrimitiveTypeName n = none) ∧
    (∀ n : Nat, n < PrimitiveType_ARRAYSIZE → PrimitiveType_IsValid n = false →
      LowercasePrimitiveTypeName n = some "") := by
  constructor
  · intro n h
    have hn : ¬ n < PrimitiveType_ARRAYSIZE := Nat.not_lt.mpr h
    simp [LowercasePrimitiveTypeName, hn]
  · intro n h hv
    have hall : ∀ m : Nat, m < PrimitiveType_ARRAYSIZE → PrimitiveType_IsValid m = true := by
      decide
    rw [hall n h] at hv
    exact Bool.noConfusion hv

/-- Witness for claim C8 at the concrete out-of-range ordinal 30. -/
theorem c8_witness :
    PrimitiveType_ARRAYSIZE ≤ 30 ∧ LowercasePrimitiveTypeName 30 = none :=
  ⟨by decide, c8_theorem.1 30 (by decide)⟩

/-- Claim C9: on any input matching no registered name,
`StringToPrimitiveType` returns a typed failure (never a crash) whose
message contains the offending input verbatim between fixed literal
pieces. -/
theorem c9_theorem (s : String) (h : IsPrimitiveTypeName s = false) :
    StringToPrimitiveType s = .error ("Invalid element type string: \"" ++ s ++ "\".") := by
  unfold IsPrimitiveTypeName at h
  unfold StringToPrimitiveType
  cases hm : mapFind nameToTypeMap s with
  | none => rfl
  | some t =>
    rw [hm] at h
    exact Bool.noConfusion h

/-- Witness for claim C9 at the concrete input "not_a_real_type". -/
theorem c9_witness :
    IsPrimitiveTypeName "not_a_real_type" = false ∧
    StringToPrimitiveType "not_a_real_type"
      = .error ("Invalid element type string: \"" ++ "not_a_real_type" ++ "\".") :=
  ⟨by decide, c9_theorem "not_a_real_type" (by decide)⟩

/-- Claim C10: `SignedIntegralTypeForBitWidth` is total, maps the bit
widths 4, 8, 16, 32 and 64 to S4, S8, S16, S32 and S64, and maps every
other width to the PRIMITIVE_TYPE_INVALID sentinel rather than failing. -/
theorem c10_theorem :
    SignedIntegralTypeForBitWidth 4 = S4 ∧
    SignedIntegralTypeForBitWidth 8 = S8 ∧
    SignedIntegralTypeForBitWidth 16 = S16 ∧
    SignedIntegralTypeForBitWidth 32 = S32 ∧
    SignedIntegralTypeForBitWidth 64 = S64 ∧
    ∀ w : Int, w ∉ ([4, 8, 16, 32, 64] : List Int) →
      SignedIntegralTypeForBitWidth w = PRIMITIVE_TYPE_INVALID := by
  refine ⟨rfl, rfl, rfl, rfl, rfl, ?_⟩
  intro w h
  simp only [List.mem_cons, List.not_mem_nil, or_false, not_or] at h
  obtain ⟨h4, h8, h16, h32, h64⟩ := h
  simp [SignedIntegralTypeForBitWidth, h4, h8, h16, h32, h64]

/-- Witness for claim C10 at the concrete unsupported widths 7 and -3. -/
theorem c10_witness :
    ((7 : Int) ∉ ([4, 8, 16, 32, 64] : List Int) ∧
      SignedIntegralTypeForBitWidth 7 = PRIMITIVE_TYPE_INVALID) ∧
    ((-3 : Int) ∉ ([4, 8, 16, 32, 64] : List Int) ∧
      SignedIntegralTypeForBitWidth (-3) = PRIMITIVE_TYPE_INVALID) :=
  ⟨⟨by decide, c10_theorem.2.2.2.2.2 7 (by decide)⟩,
   ⟨by decide, c10_theorem.2.2.2.2.2 (-3) (by decide)⟩⟩
